import Mathlib

/-!
Verification of the dependency-virtualization and async/sync bridging layer
of the repository (conftest.py, sitecustomize.py, docling_core_stub.py).

The Python code is shallowly embedded:

* `sys.modules` is an association list from dotted module names to object
  identifiers; module objects live in a small heap so that object identity
  (aliasing between a registry entry and a parent module attribute) is
  represented faithfully.
* coroutines are functions from the event-loop-local store to an outcome
  (`Except PyErr`), and `asyncio.run` is a state transformer that allocates a
  fresh loop identifier, drives the coroutine on an empty loop-local store and
  closes the loop before returning;
* Python exceptions (`NameError`, `TypeError`, `StopAsyncIteration`, and
  generic exceptions) are the constructors of `PyErr`.
-/

set_option autoImplicit false

namespace DoclingHarness

/-- Python exceptions relevant to the embedded code. -/
inductive PyErr where
  | nameError (ident : String)
  | typeError (msg : String)
  | stopAsyncIteration
  | exc (tag : String)
  deriving Repr, DecidableEq

/-! ## Association lists (dotted module name tables, attribute tables) -/

/-- Lookup in an association list with string keys: first binding wins,
matching Python dict lookup over our insert discipline. -/
def alistFind (k : String) : List (String × Nat) → Option Nat
  | [] => none
  | (k', v) :: rest => if k' = k then some v else alistFind k rest

/-- Remove every binding for key `k`. -/
def alistErase (k : String) : List (String × Nat) → List (String × Nat)
  | [] => []
  | (k', v) :: rest =>
      if k' = k then alistErase k rest else (k', v) :: alistErase k rest

/-- Dict update `d[k] = v`: drop any old binding for `k` and bind it afresh. -/
def alistInsert (k : String) (v : Nat) (l : List (String × Nat)) :
    List (String × Nat) :=
  (k, v) :: alistErase k l

/-! ## Module objects and the process-wide registry state -/

/-- A Python object as far as the registry is concerned: its attribute table
(attribute name to object identifier).  Synthetic modules, classes and stub
functions are all heap objects; only modules get attributes assigned here. -/
structure PyObj where
  attrs : List (String × Nat)
  deriving Repr, DecidableEq

/-- The object heap: every object identifier maps to an attribute table;
identifiers that were never allocated carry the empty table. -/
abbrev Heap : Type := Nat → PyObj

/-- Point update of the heap. -/
def heapUpdate (h : Heap) (i : Nat) (o : PyObj) : Heap :=
  fun j => if j = i then o else h j

/-- Process-wide interpreter state: an allocator, the object heap and
`sys.modules`. -/
structure PyState where
  nextId : Nat
  heap : Heap
  sysModules : List (String × Nat)

def pyStateEmpty : PyState := ⟨0, fun _ => ⟨[]⟩, []⟩

/-- Allocate a fresh object (`types.ModuleType(...)`, a class statement, or a
function definition); returns the new state and the object identifier. -/
def newObj (st : PyState) : PyState × Nat :=
  ({ st with nextId := st.nextId + 1,
             heap := heapUpdate st.heap st.nextId ⟨[]⟩ },
   st.nextId)

/-- Attribute assignment `obj.name = value` on a heap object. -/
def setAttr (st : PyState) (i : Nat) (name : String) (v : Nat) : PyState :=
  { st with
    heap := heapUpdate st.heap i ⟨alistInsert name v (st.heap i).attrs⟩ }

/-- `sys.modules[name] = obj`. -/
def registerModule (st : PyState) (name : String) (i : Nat) : PyState :=
  { st with sysModules := alistInsert name i st.sysModules }

/-- Attribute read `obj.name` through the registry state. -/
def attrOf (st : PyState) (i : Nat) (name : String) : Option Nat :=
  alistFind name (st.heap i).attrs

/-- Registry lookup composed with an attribute read: the handle reached by
first resolving `parent` in `sys.modules` and then reading attribute `child`
on the resulting module object. -/
def resolveAttr (st : PyState) (parent child : String) : Option Nat :=
  match alistFind parent st.sysModules with
  | some i => attrOf st i child
  | none => none

/-! ## The websockets stub

`sitecustomize.py` lines 372 to 407 (`_install_websockets_stub`): guarded
installation, with the `sys.modules.update` inside the guard. -/

/-- Builds the three-level websockets module hierarchy: allocates the
`_connect` function, the `websockets.sync.client`, `websockets.sync` and
`websockets` module objects, and links each child to its parent attribute.
Returns the extended state and the identifiers of the `websockets`,
`websockets.sync` and `websockets.sync.client` objects, in this order. -/
def buildWebsocketsLocals (st : PyState) : PyState × Nat × Nat × Nat :=
  let (st, connectId) := newObj st
  let (st, clientId) := newObj st
  let st := setAttr st clientId "connect" connectId
  let (st, syncId) := newObj st
  let st := setAttr st syncId "client" clientId
  let (st, wsId) := newObj st
  let st := setAttr st wsId "sync" syncId
  (st, wsId, syncId, clientId)

/-- Embedding of `_install_websockets_stub` (sitecustomize.py lines 372-407):
early return when `websockets` is already registered, otherwise build the
hierarchy and register all three dotted names. -/
def installWebsocketsStub (st : PyState) : PyState :=
  match alistFind "websockets" st.sysModules with
  | some _ => st
  | none =>
      let (st, wsId, syncId, clientId) := buildWebsocketsLocals st
      let st := registerModule st "websockets" wsId
      let st := registerModule st "websockets.sync" syncId
      registerModule st "websockets.sync.client" clientId

/-- Embedding of the conftest.py websockets block (lines 239-272).  The
`if "websockets" not in sys.modules` guard binds the local names
`_ws_mod`, `_ws_sync_mod` and `_ws_client_mod`, but the following
`sys.modules.update({...})` statement is written at column 0, outside the
guard, so it executes unconditionally; when the guard was skipped the update
references the unbound local `_ws_mod` and raises `NameError`. -/
def conftestWebsocketsBlock (st : PyState) : Except PyErr PyState :=
  let wsLocals : Option (PyState × Nat × Nat × Nat) :=
    match alistFind "websockets" st.sysModules with
    | some _ => none
    | none => some (buildWebsocketsLocals st)
  match wsLocals with
  | some (st, wsId, syncId, clientId) =>
      let st := registerModule st "websockets" wsId
      let st := registerModule st "websockets.sync" syncId
      .ok (registerModule st "websockets.sync.client" clientId)
  | none => .error (.nameError "_ws_mod")

/-! ## The pypdfium2 stub (conftest.py lines 513-557) -/

/-- Embedding of the conftest.py pypdfium2 block: the `pypdfium2` module
object receives the class attributes, but the `pypdfium2.raw`,
`pypdfium2._helpers` and `pypdfium2._helpers.misc` modules are registered in
`sys.modules` without ever being attached as attributes of their parents. -/
def conftestPypdfium2Block (st : PyState) : PyState :=
  match alistFind "pypdfium2" st.sysModules with
  | some _ => st
  | none =>
      let (st, ppId) := newObj st            -- _pp_mod
      let (st, pdfiumErrId) := newObj st     -- class PdfiumError
      let (st, dummyId) := newObj st         -- class _Dummy
      let st := setAttr st ppId "PdfDocument" dummyId
      let st := setAttr st ppId "PdfPage" dummyId
      let st := setAttr st ppId "PdfTextPage" dummyId
      let st := setAttr st ppId "PdfiumError" pdfiumErrId
      let (st, rawId) := newObj st           -- _pp_raw
      let st := registerModule st "pypdfium2.raw" rawId
      let (st, helpersId) := newObj st       -- _pp_helpers
      let (st, miscId) := newObj st          -- _pp_helpers_misc
      let st := setAttr st miscId "PdfiumError" pdfiumErrId
      let st := registerModule st "pypdfium2._helpers" helpersId
      let st := registerModule st "pypdfium2._helpers.misc" miscId
      registerModule st "pypdfium2" ppId

/-! ## Event loops and the async bridge (conftest.py lines 73-124) -/

/-- Events on the trace of event-loop lifecycle operations. -/
inductive LoopEvent where
  | created (loopId : Nat)
  | closed (loopId : Nat)
  deriving Repr, DecidableEq

/-- Loop-local storage: state attached to one event loop (timers, callbacks,
loop-bound values); it exists only between loop creation and loop close. -/
abbrev LoopLocal : Type := List (String × Nat)

/-- A coroutine object: driving it to completion on a loop reads and writes
that loop-local storage and produces a value or a raised exception. -/
abbrev Coro (α : Type) : Type := LoopLocal → Except PyErr α × LoopLocal

/-- The ambient event-loop machinery: an allocator of fresh loop identities
and the trace of loop lifecycle events. -/
structure LoopCtx where
  nextLoopId : Nat
  trace : List LoopEvent
  deriving Repr, DecidableEq

/-- Embedding of asyncio.run: create a fresh event loop with empty loop-local
storage, drive the awaitable to completion on it, close the loop (its
loop-local storage is dropped), and return the result or re-raise the
exception to the synchronous caller. -/
def asyncioRun {α : Type} (ctx : LoopCtx) (c : Coro α) :
    Except PyErr α × LoopCtx :=
  let lid := ctx.nextLoopId
  ((c []).1,
   { nextLoopId := lid + 1,
     trace := ctx.trace ++ [LoopEvent.created lid, LoopEvent.closed lid] })

/-- Embedding of conftest.py _sync_wrapper (lines 79-80): the synchronous
bridge for a Coroutine-kind fixture calls the wrapped coroutine function on
the given arguments and drives the coroutine with asyncio.run. -/
def sync_wrapper {ι α : Type} (func : ι → Coro α) (args : ι) (ctx : LoopCtx) :
    Except PyErr α × LoopCtx :=
  asyncioRun ctx (func args)

/-! ## Async generators (conftest.py lines 89-104) -/

/-- One observable reaction of an async generator to an __anext__ call:
yield a value, terminate (StopAsyncIteration), or raise an exception. -/
inductive AGenStep (α : Type) where
  | yld (v : α)
  | stop
  | err (e : PyErr)
  deriving Repr, DecidableEq

/-- An async generator object, described by the reactions of its successive
__anext__ calls; past the end of the list the generator is exhausted and
every further __anext__ raises StopAsyncIteration. -/
structure AGen (α : Type) where
  steps : List (AGenStep α)
  deriving Repr, DecidableEq

/-- Outcome of the coroutine agen.__anext__() when the generator cursor is at
position pos. -/
def anextOutcome {α : Type} (g : AGen α) (pos : Nat) : Except PyErr α :=
  match g.steps.get? pos with
  | some (AGenStep.yld v) => .ok v
  | some AGenStep.stop => .error .stopAsyncIteration
  | some (AGenStep.err e) => .error e
  | none => .error .stopAsyncIteration

/-- agen.__anext__() packaged as a coroutine to be driven by asyncio.run. -/
def anextCoro {α : Type} (g : AGen α) (pos : Nat) : Coro α :=
  fun loc => (anextOutcome g pos, loc)

/-- Cursor advance caused by one __anext__ call: the generator body runs up
to its next suspension point, so the cursor moves exactly one step (and not
further) while steps remain. -/
def nextPos {α : Type} (g : AGen α) (pos : Nat) : Nat :=
  match g.steps.get? pos with
  | some _ => pos + 1
  | none => pos

/-- Embedding of the setup phase of conftest.py _sync_gen_wrapper (lines
92-95): drive agen.__anext__() on a fresh loop via asyncio.run; the produced
value is what the wrapper yields to pytest as the fixture value.  Returns the
outcome, the new generator cursor, and the loop context. -/
def sync_gen_wrapper_setup {α : Type} (g : AGen α) (ctx : LoopCtx) :
    Except PyErr α × Nat × LoopCtx :=
  let r := asyncioRun ctx (anextCoro g 0)
  (r.1, nextPos g 0, r.2)

/-- Embedding of the teardown phase of _sync_gen_wrapper (lines 96-100): the
finally block drives agen.__anext__() exactly once more via asyncio.run; a
yielded value is discarded (the expression statement ignores the result of
asyncio.run), StopAsyncIteration is suppressed by the except clause, and any
other exception propagates to the caller. -/
def sync_gen_wrapper_teardown {α : Type} (g : AGen α) (pos : Nat)
    (ctx : LoopCtx) : Except PyErr Unit × Nat × LoopCtx :=
  let r := asyncioRun ctx (anextCoro g pos)
  let outcome : Except PyErr Unit :=
    match r.1 with
    | .ok _ => .ok ()
    | .error PyErr.stopAsyncIteration => .ok ()
    | .error e => .error e
  (outcome, nextPos g pos, r.2)

/-! ## The test-runner call interceptor (conftest.py lines 159-176) -/

/-- A collected pytest test item as pytest_pyfunc_call sees it: whether
inspect.iscoroutinefunction(pyfuncitem.obj) holds, the coroutine produced by
calling the test object with keyword arguments, the already-resolved fixture
values (pyfuncitem.funcargs), and the fixture argument names listed in
pyfuncitem._fixtureinfo.argnames. -/
structure PyFuncItem where
  isCoroutineFn : Bool
  coroOf : List (String × Nat) → Coro Nat
  funcargs : List (String × Nat)
  argnames : List String

/-- The dict comprehension at conftest.py lines 170-173: for each fixture
argument name, look up the already-resolved value in funcargs; a missing name
raises KeyError. -/
def buildKwargs (funcargs : List (String × Nat)) :
    List String → Except PyErr (List (String × Nat))
  | [] => .ok []
  | n :: rest =>
      match alistFind n funcargs with
      | some v =>
          match buildKwargs funcargs rest with
          | .ok kw => .ok ((n, v) :: kw)
          | .error e => .error e
      | none => .error (.exc "KeyError")

/-- Embedding of conftest.py pytest_pyfunc_call (lines 159-176): for a
coroutine test object, build the keyword arguments from the resolved fixture
values, drive the call through asyncio.run and return True; for a synchronous
test object, return None and leave default execution to pytest.  The third
component logs every invocation routed through the bridge together with the
keyword arguments it received. -/
def pytest_pyfunc_call (item : PyFuncItem) (ctx : LoopCtx) :
    Except PyErr (Option Bool) × LoopCtx × List (List (String × Nat)) :=
  if item.isCoroutineFn then
    match buildKwargs item.funcargs item.argnames with
    | .error e => (.error e, ctx, [])
    | .ok kw =>
        match asyncioRun ctx (item.coroOf kw) with
        | (.ok _, ctx2) => (.ok (some true), ctx2, [kw])
        | (.error e, ctx2) => (.error e, ctx2, [kw])
  else
    (.ok none, ctx, [])

/-! ## The late-binding import hook (sitecustomize.py lines 180-204) -/

/-- Interpreter state relevant to the late-binding import hook: whether
pytest is present in sys.modules, how many times
_upgrade_pytest_asyncio_stub has been invoked, and whether the
_PytestImportHook instance is still installed in sys.meta_path. -/
structure HookState where
  pytestLoaded : Bool
  upgradeCalls : Nat
  hookInMetaPath : Bool
  deriving Repr, DecidableEq

/-- The state right after sitecustomize.py line 204 armed the hook. -/
def armedInit : HookState := ⟨false, 0, true⟩

/-- Python calling convention for a plain function stored as an instance
attribute: no instance is bound, so the caller supplies exactly its explicit
arguments, and an argument count different from the function arity raises
TypeError before the body can run. -/
def callInstanceAttr (arity argsSupplied : Nat)
    (body : HookState → Except PyErr HookState) (st : HookState) :
    Except PyErr HookState :=
  if argsSupplied = arity then body st
  else .error (.typeError "exec_module_override")

/-- Parameter count of exec_module_override (sitecustomize.py line 195):
loader_self and module. -/
def execModuleOverrideArity : Nat := 2

/-- Body of exec_module_override (sitecustomize.py lines 196-197), were it
ever reached: run the original exec_module (pytest becomes loaded), then
invoke _upgrade_pytest_asyncio_stub on the placeholder module. -/
def execModuleOverrideHookBody (st : HookState) : Except PyErr HookState :=
  .ok { st with pytestLoaded := true, upgradeCalls := st.upgradeCalls + 1 }

/-- One `import pytest` attempt.  When pytest is already in sys.modules,
the import system returns it without consulting sys.meta_path.  Otherwise, with
the hook armed, _PytestImportHook.find_spec wraps the found spec by storing
exec_module_override as an instance attribute of the loader (line 199); then
the import machinery calls loader.exec_module(module), supplying a single
positional argument. -/
def importPytestAttempt (st : HookState) : Except PyErr HookState :=
  if st.pytestLoaded then .ok st
  else if st.hookInMetaPath then
    callInstanceAttr execModuleOverrideArity 1 execModuleOverrideHookBody st
  else
    .ok { st with pytestLoaded := true }

/-- Iterated import attempts; a failed import leaves the state unchanged (the
partially initialised module is removed from sys.modules again and
sys.meta_path is untouched). -/
def importAttempts : Nat → HookState → HookState
  | 0, st => st
  | n + 1, st =>
      match importPytestAttempt st with
      | .ok st2 => importAttempts n st2
      | .error _ => importAttempts n st

/-- Body of exec_module_override with its collaborators made explicit:
orig_exec(module) followed by the upgrade call.  Sitecustomize.py lines
195-197 contain no exception handler around either call. -/
def execModuleOverrideRun {α : Type} (origExec upgradeFn : α → Except PyErr α)
    (m : α) : Except PyErr α :=
  match origExec m with
  | .error e => .error e
  | .ok m2 =>
      match upgradeFn m2 with
      | .error e => .error e
      | .ok m3 => .ok m3

/-! ## The sitecustomize.py module prologue (lines 76-100) -/

/-- Embedding of the sitecustomize.py statements at lines 76-100.  The guard
at line 78 binds the local _pytest_asyncio_mod only when the sibling file
pytest_asyncio.py does not exist.  Lines 84-100 are written at column 0,
outside the guard: the function definition at line 84 always executes, and
the attribute assignment at line 91 then references _pytest_asyncio_mod
unconditionally, raising NameError whenever the guard was skipped. -/
def sitecustomizePrologue (pytestAsyncioFileExists : Bool) (st0 : PyState) :
    Except PyErr PyState :=
  let afterGuard : PyState × Option Nat :=
    if pytestAsyncioFileExists then (st0, none)
    else
      let (st1, modId) := newObj st0                      -- line 81
      (st1, some modId)
  let (st2, noopId) := newObj afterGuard.1                -- line 84
  match afterGuard.2 with
  | some modId =>
      let st3 := setAttr st2 modId "fixture" noopId       -- line 91
      let (st4, trueId) := newObj st3
      let st5 := setAttr st4 modId "asyncio" trueId       -- line 97
      .ok (registerModule st5 "pytest_asyncio" modId)     -- line 100
  | none => .error (.nameError "_pytest_asyncio_mod")     -- line 91 raises

/-! ## Helper lemmas -/

@[simp] theorem alistFind_nil (k : String) : alistFind k [] = none := rfl

@[simp] theorem alistFind_cons (k k' : String) (v : Nat)
    (l : List (String × Nat)) :
    alistFind k ((k', v) :: l) = if k' = k then some v else alistFind k l :=
  rfl

theorem alistFind_insert_self (k : String) (v : Nat) (l : List (String × Nat)) :
    alistFind k (alistInsert k v l) = some v := by
  simp [alistInsert]

theorem alistFind_erase_ne (k k' : String) (h : k' ≠ k)
    (l : List (String × Nat)) :
    alistFind k (alistErase k' l) = alistFind k l := by
  induction l with
  | nil => rfl
  | cons p rest ih =>
      obtain ⟨a, v⟩ := p
      by_cases ha : a = k'
      · have hak : ¬a = k := fun hh => h (ha ▸ hh)
        simp [alistErase, ha, hak, ih, h]
      · by_cases hk : a = k
        · subst hk
          simp [alistErase, ha, ih]
        · simp [alistErase, ha, hk, ih]

theorem alistFind_insert_ne (k k' : String) (v : Nat) (l : List (String × Nat))
    (h : k' ≠ k) : alistFind k (alistInsert k' v l) = alistFind k l := by
  simp only [alistInsert, alistFind_cons, if_neg h]
  exact alistFind_erase_ne k k' h l

theorem buildKwargs_spec (fa : List (String × Nat)) :
    ∀ (an : List String) (kw : List (String × Nat)),
      buildKwargs fa an = .ok kw →
      kw.map Prod.fst = an ∧ ∀ p ∈ kw, alistFind p.1 fa = some p.2 := by
  intro an
  induction an with
  | nil =>
      intro kw hkw
      cases hkw
      exact ⟨rfl, by intro p hp; cases hp⟩
  | cons n rest ih =>
      intro kw hkw
      unfold buildKwargs at hkw
      cases hfind : alistFind n fa with
      | none => rw [hfind] at hkw; cases hkw
      | some v =>
          rw [hfind] at hkw
          cases hrest : buildKwargs fa rest with
          | error e => rw [hrest] at hkw; cases hkw
          | ok kw2 =>
              rw [hrest] at hkw
              cases hkw
              obtain ⟨h1, h2⟩ := ih kw2 hrest
              refine ⟨by simp [h1], ?_⟩
              intro p hp
              rcases List.mem_cons.mp hp with hp | hp
              · subst hp; exact hfind
              · exact h2 p hp

/-! ## Claim theorems -/

/-- C1: code-bug evidence.  The claim states that a registration request for
a module name already present in the registry is a silent no-op that leaves
the existing entry unchanged.  The conftest.py websockets block (lines
239-272) violates this: its sys.modules.update call is dedented out of the
`if "websockets" not in sys.modules` guard, so when "websockets" is already
registered — here, because sitecustomize's correctly guarded
_install_websockets_stub ran first, exactly as happens at interpreter
start-up — the unconditional update evaluates the unbound local _ws_mod and
raises NameError instead of being a no-op.  On a state without "websockets"
the same block completes normally, showing the guard was meant to cover the
update. -/
theorem c1_conftest_websockets_rereg_raises :
    conftestWebsocketsBlock (installWebsocketsStub pyStateEmpty) =
      .error (.nameError "_ws_mod") ∧
    ∃ st, conftestWebsocketsBlock pyStateEmpty = .ok st :=
  ⟨rfl, ⟨_, rfl⟩⟩

/-- C2: counterexample.  In the registry produced by running the conftest.py
pypdfium2 block on a fresh state, the dotted name "pypdfium2.raw" is
registered (object 3) and its parent "pypdfium2" is registered (object 0),
but the parent module object exposes no attribute "raw", so attribute access
via the parent resolves to nothing while direct lookup returns a handle;
likewise "pypdfium2._helpers.misc" is registered (object 5) while its parent
"pypdfium2._helpers" (object 4) exposes no attribute "misc".  This refutes
parent-child consistency as an invariant over all registered dotted names. -/
theorem c2_parent_child_counterexample :
    alistFind "pypdfium2.raw"
        (conftestPypdfium2Block pyStateEmpty).sysModules = some 3 ∧
    alistFind "pypdfium2"
        (conftestPypdfium2Block pyStateEmpty).sysModules = some 0 ∧
    attrOf (conftestPypdfium2Block pyStateEmpty) 0 "raw" = none ∧
    resolveAttr (conftestPypdfium2Block pyStateEmpty) "pypdfium2" "raw"
        = none ∧
    alistFind "pypdfium2._helpers.misc"
        (conftestPypdfium2Block pyStateEmpty).sysModules = some 5 ∧
    alistFind "pypdfium2._helpers"
        (conftestPypdfium2Block pyStateEmpty).sysModules = some 4 ∧
    resolveAttr (conftestPypdfium2Block pyStateEmpty) "pypdfium2._helpers"
        "misc" = none :=
  ⟨rfl, rfl, rfl, rfl, rfl, rfl, rfl⟩

/-- C2 (amended): parent-child consistency is not a global registry
invariant; it holds for the hierarchies whose installation code explicitly
links children to parents.  For the websockets hierarchy: whenever
"websockets" is not yet registered, _install_websockets_stub registers
"websockets.sync.client" together with its parents "websockets.sync" and
"websockets", and each parent exposes the child as an attribute bound to
exactly the object registered under the child's dotted name, so direct
lookup and attribute access resolve to the same handle.  (The pypdfium2,
rtree.index and several docling_core registrations do not maintain the
links, as the counterexample shows.) -/
theorem c2_websockets_parent_child_consistency (st : PyState)
    (h : alistFind "websockets" st.sysModules = none) :
    alistFind "websockets.sync.client"
        (installWebsocketsStub st).sysModules = some (st.nextId + 1) ∧
    alistFind "websockets.sync"
        (installWebsocketsStub st).sysModules = some (st.nextId + 2) ∧
    alistFind "websockets"
        (installWebsocketsStub st).sysModules = some (st.nextId + 3) ∧
    resolveAttr (installWebsocketsStub st) "websockets" "sync"
        = alistFind "websockets.sync" (installWebsocketsStub st).sysModules ∧
    resolveAttr (installWebsocketsStub st) "websockets.sync" "client"
        = alistFind "websockets.sync.client"
            (installWebsocketsStub st).sysModules := by
  have ne1 : ("websockets.sync.client" : String) ≠ "websockets.sync" := by
    decide
  have ne2 : ("websockets.sync.client" : String) ≠ "websockets" := by decide
  have ne3 : ("websockets.sync" : String) ≠ "websockets" := by decide
  have hs : installWebsocketsStub st =
      registerModule (registerModule (registerModule
        (buildWebsocketsLocals st).1 "websockets"
          (buildWebsocketsLocals st).2.1) "websockets.sync"
          (buildWebsocketsLocals st).2.2.1) "websockets.sync.client"
          (buildWebsocketsLocals st).2.2.2 := by
    unfold installWebsocketsStub
    rw [h]
  have d10 : st.nextId + 1 ≠ st.nextId := by omega
  have d01 : st.nextId ≠ st.nextId + 1 := by omega
  have d21 : st.nextId + 1 + 1 ≠ st.nextId + 1 := by omega
  have d12 : st.nextId + 1 ≠ st.nextId + 1 + 1 := by omega
  have d20 : st.nextId + 1 + 1 ≠ st.nextId := by omega
  have d02 : st.nextId ≠ st.nextId + 1 + 1 := by omega
  have d31 : st.nextId + 1 + 1 + 1 ≠ st.nextId + 1 := by omega
  have d13 : st.nextId + 1 ≠ st.nextId + 1 + 1 + 1 := by omega
  have d32 : st.nextId + 1 + 1 + 1 ≠ st.nextId + 1 + 1 := by omega
  have d23 : st.nextId + 1 + 1 ≠ st.nextId + 1 + 1 + 1 := by omega
  have d30 : st.nextId + 1 + 1 + 1 ≠ st.nextId := by omega
  have d03 : st.nextId ≠ st.nextId + 1 + 1 + 1 := by omega
  have e1 : alistFind "websockets.sync.client"
      (alistInsert "websockets.sync.client" (st.nextId + 1)
        (alistInsert "websockets.sync" (st.nextId + 1 + 1)
          (alistInsert "websockets" (st.nextId + 1 + 1 + 1) st.sysModules)))
      = some (st.nextId + 1) := alistFind_insert_self _ _ _
  have e2 : alistFind "websockets.sync"
      (alistInsert "websockets.sync.client" (st.nextId + 1)
        (alistInsert "websockets.sync" (st.nextId + 1 + 1)
          (alistInsert "websockets" (st.nextId + 1 + 1 + 1) st.sysModules)))
      = some (st.nextId + 1 + 1) := by
    rw [alistFind_insert_ne _ _ _ _ ne1, alistFind_insert_self]
  have e3 : alistFind "websockets"
      (alistInsert "websockets.sync.client" (st.nextId + 1)
        (alistInsert "websockets.sync" (st.nextId + 1 + 1)
          (alistInsert "websockets" (st.nextId + 1 + 1 + 1) st.sysModules)))
      = some (st.nextId + 1 + 1 + 1) := by
    rw [alistFind_insert_ne _ _ _ _ ne2, alistFind_insert_ne _ _ _ _ ne3,
      alistFind_insert_self]
  refine ⟨?_, ?_, ?_, ?_, ?_⟩
  · rw [hs]
    simp only [registerModule, buildWebsocketsLocals, newObj, setAttr,
      heapUpdate]
    exact e1
  · rw [hs]
    simp only [registerModule, buildWebsocketsLocals, newObj, setAttr,
      heapUpdate]
    exact e2
  · rw [hs]
    simp only [registerModule, buildWebsocketsLocals, newObj, setAttr,
      heapUpdate]
    exact e3
  · rw [hs]
    simp only [resolveAttr, attrOf, registerModule, buildWebsocketsLocals,
      newObj, setAttr, heapUpdate]
    rw [e2, e3]
    simp [d10, d01, d21, d12, d20, d02, d31, d13, d32, d23, d30, d03,
      alistFind_insert_self]
  · rw [hs]
    simp only [resolveAttr, attrOf, registerModule, buildWebsocketsLocals,
      newObj, setAttr, heapUpdate]
    rw [e1, e2]
    simp [d10, d01, d21, d12, d20, d02, d31, d13, d32, d23, d30, d03,
      alistFind_insert_self]

/-- C2 amended-claim witness: the amended consistency theorem applied to the
fresh interpreter state; the hypothesis that websockets is unregistered holds
there by computation. -/
theorem c2_websockets_parent_child_consistency_witness :
    resolveAttr (installWebsocketsStub pyStateEmpty) "websockets" "sync"
      = alistFind "websockets.sync"
          (installWebsocketsStub pyStateEmpty).sysModules ∧
    alistFind "websockets.sync.client"
        (installWebsocketsStub pyStateEmpty).sysModules = some 1 :=
  ⟨(c2_websockets_parent_child_consistency pyStateEmpty rfl).2.2.2.1,
   (c2_websockets_parent_child_consistency pyStateEmpty rfl).1⟩

/-- C3: bridge correctness for Coroutine-kind callables.  _sync_wrapper
drives the coroutine with asyncio.run on a freshly created event loop: the
outcome of the wrapper equals the outcome of the coroutine run on the fresh
loop's empty loop-local storage (so a returned value v is returned and a
raised exception E is re-raised, never swallowed), the loop created for the
call is closed before the wrapper returns (the trace gains exactly a
created/closed pair for the fresh loop identifier), and the loop identifier
is consumed, never reused. -/
theorem c3_sync_wrapper_bridge_correct {ι α : Type} (func : ι → Coro α)
    (args : ι) (ctx : LoopCtx) :
    (sync_wrapper func args ctx).1 = (func args []).1 ∧
    (sync_wrapper func args ctx).2.trace =
      ctx.trace ++ [LoopEvent.created ctx.nextLoopId,
                    LoopEvent.closed ctx.nextLoopId] ∧
    (sync_wrapper func args ctx).2.nextLoopId = ctx.nextLoopId + 1 :=
  ⟨rfl, rfl, rfl⟩

/-- C4: async-generator fixture shape.  For an async generator that yields
one value v1 and then terminates, the setup phase of _sync_gen_wrapper
produces exactly .ok v1 (the single yielded fixture value) and advances the
cursor to 1; the teardown phase resumes the same generator exactly once,
receives its StopAsyncIteration exhaustion signal, suppresses it as normal
completion (.ok ()), and produces no second value (its result type carries
none). -/
theorem c4_gen_fixture_shape {α : Type} (v1 : α) (ctx : LoopCtx) :
    (sync_gen_wrapper_setup ⟨[AGenStep.yld v1]⟩ ctx).1 = .ok v1 ∧
    (sync_gen_wrapper_setup ⟨[AGenStep.yld v1]⟩ ctx).2.1 = 1 ∧
    (sync_gen_wrapper_teardown ⟨[AGenStep.yld v1]⟩
        (sync_gen_wrapper_setup ⟨[AGenStep.yld v1]⟩ ctx).2.1
        (sync_gen_wrapper_setup ⟨[AGenStep.yld v1]⟩ ctx).2.2).1 = .ok () :=
  ⟨rfl, rfl, rfl⟩

/-- C5: interceptor routing.  pytest_pyfunc_call on a synchronous test item
returns None (not handled) without touching the loop machinery and without
any bridge invocation, for every possible test body; on a coroutine test item
it routes exactly one invocation through the bridge, passing precisely the
resolved fixture values named in the item's fixture-info argnames (the logged
kwargs list the argnames in order and each value is the funcargs entry for
its name), and it reports handled (True) when the driven coroutine completes,
while a coroutine failure propagates as the raised exception. -/
theorem c5_interceptor_routing (beh : List (String × Nat) → Coro Nat)
    (fa : List (String × Nat)) (an : List String) (ctx : LoopCtx) :
    (∀ beh2 : List (String × Nat) → Coro Nat,
      pytest_pyfunc_call ⟨false, beh2, fa, an⟩ ctx = (.ok none, ctx, [])) ∧
    (∀ kw, buildKwargs fa an = .ok kw →
      (pytest_pyfunc_call ⟨true, beh, fa, an⟩ ctx).2.2 = [kw] ∧
      kw.map Prod.fst = an ∧
      (∀ p ∈ kw, alistFind p.1 fa = some p.2) ∧
      (∀ v : Nat, (beh kw []).1 = .ok v →
        (pytest_pyfunc_call ⟨true, beh, fa, an⟩ ctx).1 = .ok (some true)) ∧
      (∀ e : PyErr, (beh kw []).1 = .error e →
        (pytest_pyfunc_call ⟨true, beh, fa, an⟩ ctx).1 = .error e)) := by
  constructor
  · intro beh2
    simp [pytest_pyfunc_call]
  · intro kw hkw
    obtain ⟨h1, h2⟩ := buildKwargs_spec fa an kw hkw
    refine ⟨?_, h1, h2, ?_, ?_⟩
    · cases hout : (beh kw []).1 with
      | ok v => simp [pytest_pyfunc_call, hkw, asyncioRun, hout]
      | error e => simp [pytest_pyfunc_call, hkw, asyncioRun, hout]
    · intro v hv
      simp [pytest_pyfunc_call, hkw, asyncioRun, hv]
    · intro e he
      simp [pytest_pyfunc_call, hkw, asyncioRun, he]

/-- C5 witness: a concrete coroutine test item with one fixture argument,
where the interceptor reports handled and logs exactly the resolved fixture
value, and a concrete synchronous item where it declines. -/
theorem c5_interceptor_routing_witness :
    pytest_pyfunc_call
        ⟨false, fun _ => fun loc => (.ok 0, loc), [("x", 5)], ["x"]⟩
        ⟨0, []⟩ = (.ok none, ⟨0, []⟩, []) ∧
    (pytest_pyfunc_call
        ⟨true, fun _ => fun loc => (.ok 0, loc), [("x", 5)], ["x"]⟩
        ⟨0, []⟩).1 = .ok (some true) ∧
    (pytest_pyfunc_call
        ⟨true, fun _ => fun loc => (.ok 0, loc), [("x", 5)], ["x"]⟩
        ⟨0, []⟩).2.2 = [[("x", 5)]] := by
  have h := c5_interceptor_routing (fun _ => fun loc => (.ok 0, loc))
    [("x", 5)] ["x"] ⟨0, []⟩
  have hkw : buildKwargs [("x", 5)] ["x"] = .ok [("x", 5)] := rfl
  have h2 := h.2 [("x", 5)] hkw
  exact ⟨h.1 (fun _ => fun loc => (.ok 0, loc)),
         h2.2.2.2.1 0 rfl, h2.1⟩

/-- C6: code-bug evidence.  The claim states that the upgrade function runs
exactly once, on the first successful resolution of pytest, after which the
interceptor is retired.  In the code, _PytestImportHook.find_spec stores the
two-parameter plain function exec_module_override as an instance attribute of
the loader; the import machinery calls loader.exec_module(module) with a
single positional argument, so every import attempt raises TypeError before
the body can run: across any number of import attempts the upgrade count
stays 0 (never exactly 1), pytest never loads, and the hook instance is never
removed from sys.meta_path. -/
theorem c6_upgrade_never_runs_hook_never_retired (n : Nat) :
    importAttempts n armedInit = armedInit ∧
    importPytestAttempt armedInit =
      .error (.typeError "exec_module_override") ∧
    (importAttempts n armedInit).upgradeCalls = 0 ∧
    (importAttempts n armedInit).hookInMetaPath = true := by
  have hstep : importPytestAttempt armedInit =
      .error (.typeError "exec_module_override") := rfl
  have hiter : ∀ m, importAttempts m armedInit = armedInit := by
    intro m
    induction m with
    | zero => rfl
    | succ k ih => simp [importAttempts, hstep, ih]
  exact ⟨hiter n, hstep, by rw [hiter n]; rfl, by rw [hiter n]; rfl⟩

/-- C7: counterexample.  The claim states that an exception raised by the
upgrade function is swallowed at the hook boundary.  The body of
exec_module_override contains no exception handler: with an original
exec_module that succeeds and an upgrade function that raises, the override
terminates with that exception (isOk is false), so nothing is swallowed at
the hook boundary. -/
theorem c7_upgrade_error_not_swallowed_counterexample :
    execModuleOverrideRun (fun s : Nat => .ok s)
        (fun _ : Nat => .error (.exc "upgrade failed")) 0
      = .error (.exc "upgrade failed") ∧
    (execModuleOverrideRun (fun s : Nat => .ok s)
        (fun _ : Nat => .error (.exc "upgrade failed")) 0).isOk = false :=
  ⟨rfl, rfl⟩

/-- C7 (amended): if the original exec_module succeeds and the upgrade
function raises exception e, the exception propagates verbatim out of
exec_module_override into the import of the target framework; there is no
containment at the hook boundary. -/
theorem c7_upgrade_error_propagates {α : Type}
    (origExec upgradeFn : α → Except PyErr α) (m m2 : α) (e : PyErr)
    (hexec : origExec m = .ok m2) (hup : upgradeFn m2 = .error e) :
    execModuleOverrideRun origExec upgradeFn m = .error e := by
  simp [execModuleOverrideRun, hexec, hup]

/-- C7 amended-claim witness: concrete instance of the propagation theorem. -/
theorem c7_upgrade_error_propagates_witness :
    execModuleOverrideRun (fun s : Nat => .ok s)
        (fun _ : Nat => .error (.exc "boom")) 7 = .error (.exc "boom") :=
  c7_upgrade_error_propagates (fun s : Nat => .ok s)
    (fun _ : Nat => .error (.exc "boom")) 7 7 (.exc "boom") rfl rfl

/-- C8: bridged-call isolation.  For any two sequential invocations of the
asyncio.run primitive (every _sync_wrapper call and every __anext__ driving
step of _sync_gen_wrapper is exactly one such invocation): the second
invocation's outcome is the second coroutine run on an empty loop-local
store, independent of anything the first coroutine stored in its loop; the
two invocations use the distinct loop identifiers n and n+1; and the trace
shows each loop is created and then closed before the next one is created,
so no loop object survives into the next invocation. -/
theorem c8_bridged_call_isolation {α β : Type} (ctx : LoopCtx)
    (ca : Coro α) (cb : Coro β) :
    (asyncioRun (asyncioRun ctx ca).2 cb).1 = (cb []).1 ∧
    (asyncioRun (asyncioRun ctx ca).2 cb).2.trace =
      ctx.trace ++ [LoopEvent.created ctx.nextLoopId,
                    LoopEvent.closed ctx.nextLoopId,
                    LoopEvent.created (ctx.nextLoopId + 1),
                    LoopEvent.closed (ctx.nextLoopId + 1)] ∧
    ctx.nextLoopId ≠ ctx.nextLoopId + 1 := by
  refine ⟨rfl, ?_, Nat.ne_of_lt (Nat.lt_succ_self _)⟩
  simp [asyncioRun]

/-- C9: the sitecustomize.py prologue completes without error when the
sibling file pytest_asyncio.py is absent (the stub module is built and
registered), and raises NameError for _pytest_asyncio_mod when that file
exists, because the statements at lines 84-100 are dedented out of the guard
at line 78 and reference the name the skipped guard would have bound. -/
theorem c9_sitecustomize_prologue_guard_mismatch (st : PyState) :
    sitecustomizePrologue true st =
      .error (.nameError "_pytest_asyncio_mod") ∧
    ∃ st2, sitecustomizePrologue false st = .ok st2 :=
  ⟨rfl, ⟨_, rfl⟩⟩

/-- C10: teardown of an async generator that yields a second value.  The
finally block of _sync_gen_wrapper resumes the generator exactly once: the
second yielded value is silently discarded (outcome .ok () with no error
reported), the cursor stops at 2 — for every continuation of the generator
after its second yield, none of it runs during teardown — and only
StopAsyncIteration is suppressed: any other exception raised on resumption
propagates to the caller. -/
theorem c10_teardown_discards_second_yield {α : Type} (v1 v2 : α)
    (rest : List (AGenStep α)) (ctx ctx2 : LoopCtx) (tag : String) :
    (sync_gen_wrapper_setup ⟨AGenStep.yld v1 :: AGenStep.yld v2 :: rest⟩
        ctx).1 = .ok v1 ∧
    (sync_gen_wrapper_setup ⟨AGenStep.yld v1 :: AGenStep.yld v2 :: rest⟩
        ctx).2.1 = 1 ∧
    (sync_gen_wrapper_teardown ⟨AGenStep.yld v1 :: AGenStep.yld v2 :: rest⟩
        1 ctx2).1 = .ok () ∧
    (sync_gen_wrapper_teardown ⟨AGenStep.yld v1 :: AGenStep.yld v2 :: rest⟩
        1 ctx2).2.1 = 2 ∧
    (sync_gen_wrapper_teardown ⟨[AGenStep.yld v1, AGenStep.err (.exc tag)]⟩
        1 ctx2).1 = .error (.exc tag) :=
  ⟨rfl, rfl, rfl, rfl, rfl⟩

end DoclingHarness
